import Mathlib

/-!
# kolbot: minimum game time per IP share count

A shallow embedding of `libs/systems/features/minGameTimeCalculator.js` and of the
`ProfilesPerIP` group of `libs/systems/features/Settings.js`.

Modelling choices:
* A JavaScript number is an exact rational or NaN (`JSNumber`); rounding, signed zero and
  the infinities are outside the model.
* A property value is a primitive (`JSPrim`); an entry of `ProfilesArray` is an object given
  by its properties (`JSObject`); reading an absent property yields `undefined`.
* A thrown exception is the `error` side of `Except JSError`.
* The engine built-ins on strings that the code calls (`String.prototype.toUpperCase`, the
  string to number and number to string conversions) are parameters (`Builtins`).
* `me.profile` is a string, passed explicitly.
-/

namespace Kolbot

/-! ## JavaScript values -/

/-- A JavaScript number: an exact rational, or NaN. -/
inductive JSNumber where
  | finite (q : ℚ)
  | nan
deriving DecidableEq

namespace JSNumber

/-- Addition of numbers; NaN is absorbing. -/
def add : JSNumber → JSNumber → JSNumber
  | finite a, finite b => finite (a + b)
  | _, _ => nan

/-- Subtraction of numbers; NaN is absorbing. -/
def sub : JSNumber → JSNumber → JSNumber
  | finite a, finite b => finite (a - b)
  | _, _ => nan

/-- Multiplication of numbers; NaN is absorbing. -/
def mul : JSNumber → JSNumber → JSNumber
  | finite a, finite b => finite (a * b)
  | _, _ => nan

instance instAdd : Add JSNumber := ⟨add⟩
instance instSub : Sub JSNumber := ⟨sub⟩
instance instMul : Mul JSNumber := ⟨mul⟩

/-- The comparison `a > b` on numbers: false as soon as one side is NaN. -/
def gt : JSNumber → JSNumber → Bool
  | finite a, finite b => decide (b < a)
  | _, _ => false

/-- The comparison `a >= b` on numbers: false as soon as one side is NaN. -/
def ge : JSNumber → JSNumber → Bool
  | finite a, finite b => decide (b ≤ a)
  | _, _ => false

/-- The comparison `a < b` on numbers: false as soon as one side is NaN. -/
def lt : JSNumber → JSNumber → Bool
  | finite a, finite b => decide (a < b)
  | _, _ => false

/-- The comparison `a <= b` on numbers: false as soon as one side is NaN. -/
def le : JSNumber → JSNumber → Bool
  | finite a, finite b => decide (a ≤ b)
  | _, _ => false

/-- `Math.min(a, b)` on two numbers: NaN as soon as one side is NaN. -/
def mathMin : JSNumber → JSNumber → JSNumber
  | finite a, finite b => finite (min a b)
  | _, _ => nan

end JSNumber

/-- A primitive JavaScript value, as stored in a settings property. -/
inductive JSPrim where
  | undefined
  | null
  | boolean (b : Bool)
  | number (n : JSNumber)
  | string (s : String)
deriving DecidableEq

/-- An object, given by its own properties (each key listed once). -/
abbrev JSObject := List (String × JSPrim)

/-- An exception value: a `TypeError` raised by the engine, or an `Error` built by the code
with its message. -/
inductive JSError where
  | typeError
  | error (message : String)
deriving DecidableEq

/-- The engine built-ins on strings used by the code, taken as parameters:
`String.prototype.toUpperCase`, the conversion of a string to a number and the conversion
of a number to a string. -/
structure Builtins where
  toUpperCase : String → String
  stringToNumber : String → JSNumber
  numberToString : JSNumber → String

/-- Upper-casing of the letters `a` to `z`, every other character kept. -/
def asciiUpper (s : String) : String :=
  String.mk (s.data.map Char.toUpper)

/-- A concrete instance of the built-ins for evaluating examples. It agrees with the engine
on ASCII text for `toUpperCase`, on strings of decimal digits for the conversion to a number
(any other string is sent to NaN here) and on integers for the conversion to a string (any
other rational is written as numerator and denominator here). -/
def asciiBuiltins : Builtins where
  toUpperCase := asciiUpper
  stringToNumber := fun s =>
    match s.toNat? with
    | some n => .finite n
    | none => .nan
  numberToString := fun n =>
    match n with
    | .finite q => if q.den = 1 then toString q.num else toString q.num ++ "/" ++ toString q.den
    | .nan => "NaN"

/-- Property read `obj.key` on an object: the value bound to `key`, `undefined` when the
object has no such property. -/
def getProp (obj : JSObject) (key : String) : JSPrim :=
  (obj.lookup key).getD .undefined

/-- The conversion `ToNumber` on primitives. -/
def toNumber (js : Builtins) : JSPrim → JSNumber
  | .undefined => .nan
  | .null => .finite 0
  | .boolean b => .finite (if b then 1 else 0)
  | .number n => n
  | .string s => js.stringToNumber s

/-- The conversion `ToString` on primitives, as applied by `+` with a string operand. -/
def toJSString (js : Builtins) : JSPrim → String
  | .undefined => "undefined"
  | .null => "null"
  | .boolean b => if b then "true" else "false"
  | .number n => js.numberToString n
  | .string s => s

/-- The method call `v.toUpperCase()`: defined on strings only; on `undefined` and `null`
the property read throws, on a number or a boolean the property is not a function. -/
def callToUpperCase (js : Builtins) : JSPrim → Except JSError String
  | .string s => .ok (js.toUpperCase s)
  | _ => .error .typeError

/-- The comparison `v > n` of a primitive with a number (`ToNumber` on the left). -/
def jsGreater (js : Builtins) (v : JSPrim) (n : JSNumber) : Bool :=
  (toNumber js v).gt n

/-- The comparison `v < n` of a primitive with a number (`ToNumber` on the left). -/
def jsLess (js : Builtins) (v : JSPrim) (n : JSNumber) : Bool :=
  (toNumber js v).lt n

/-- `Math.min(v, n)` of a primitive and a number (`ToNumber` on the left). -/
def jsMathMin (js : Builtins) (v : JSPrim) (n : JSNumber) : JSNumber :=
  (toNumber js v).mathMin n

/-- `Array.prototype.find` with a callback that may throw: the first element on which the
callback returns true, `none` (for `undefined`) when there is none; an exception of the
callback ends the search. -/
def find {α : Type} (callback : α → Except JSError Bool) : List α → Except JSError (Option α)
  | [] => .ok none
  | x :: xs =>
    match callback x with
    | .error e => .error e
    | .ok true => .ok (some x)
    | .ok false => find callback xs

/-! ## Settings.js -/

/-- The group `Features.ProfilesPerIP` of the settings object. -/
structure ProfilesPerIPSettings where
  StaticProfiles : JSPrim
  ProfilesArray : List JSObject

/-- The settings object `Features`, restricted to the group read by the calculator. -/
structure FeaturesSettings where
  ProfilesPerIP : ProfilesPerIPSettings

/-- The value of `Features` as shipped in `Settings.js`. -/
def Features : FeaturesSettings where
  ProfilesPerIP := { StaticProfiles := .number (.finite 1), ProfilesArray := [] }

/-- An entry of `ProfilesArray` in the shape the commented example of `Settings.js` documents:
`{ Profile: name, IPs: n }`. -/
def documentedEntry (name : String) (n : ℚ) : JSObject :=
  [("Profile", .string name), ("IPs", .number (.finite n))]

/-- An entry of `ProfilesArray` in the shape the calculator reads:
`{ ProfileName: name, IP: ip }`. -/
def mkEntry (name : String) (ip : JSPrim) : JSObject :=
  [("ProfileName", .string name), ("IP", ip)]

/-! ## minGameTimeCalculator.js -/

/-- The callback of both lookups:
`profile => profile.ProfileName.toUpperCase() === me.profile.toUpperCase()`. -/
def profileMatches (js : Builtins) (meProfile : String) (profile : JSObject) :
    Except JSError Bool :=
  match callToUpperCase js (getProp profile "ProfileName") with
  | .error e => .error e
  | .ok name => .ok (name == js.toUpperCase meProfile)

/-- The function `calculateMinGameTime(numProfiles)`. -/
def calculateMinGameTime (numProfiles : JSNumber) : JSNumber :=
  let maxAllowedProfilesPerIP : JSNumber := .finite 8
  let defaultMinGameTime : JSNumber := .finite 600
  let additionalMinGameTimePerProfile : JSNumber :=
    if numProfiles.ge (.finite 2) && numProfiles.lt (.finite 3) then .finite 300 else .finite 0
  let additionalProfileTimeSmallGroup : JSNumber :=
    if numProfiles.ge (.finite 3) && numProfiles.lt (.finite 4) then .finite 900 else .finite 0
  let additionalProfileTimeLargeGroup : JSNumber :=
    if numProfiles.ge (.finite 4) && numProfiles.le (.finite 8) then .finite 1500 else .finite 0
  let clampedNumProfiles := numProfiles.mathMin maxAllowedProfilesPerIP
  let additionalTime := (clampedNumProfiles - .finite 1) * additionalMinGameTimePerProfile
    + additionalProfileTimeSmallGroup + additionalProfileTimeLargeGroup
  let minGameTime := defaultMinGameTime + additionalTime
  minGameTime

/-- The body of the `try` block of `calculateAndSetMinGameTime`. The initial value
`Infinity` of `minGameTime` is overwritten on both branches before it is returned. -/
def calculateAndSetMinGameTimeTry (js : Builtins) (F : FeaturesSettings) (meProfile : String) :
    Except JSError JSNumber :=
  let maxAllowedProfilesPerIP : JSNumber := .finite 8
  let profilesArray := F.ProfilesPerIP.ProfilesArray
  match find (profileMatches js meProfile) profilesArray with
  | .error e => .error e
  | .ok (some profileInArray) =>
    let clampedNumProfiles := jsMathMin js (getProp profileInArray "IP") maxAllowedProfilesPerIP
    if jsGreater js (getProp profileInArray "IP") maxAllowedProfilesPerIP then
      .error (.error ("Invalid IP value in ProfilesArray. Maximum allowed is "
        ++ js.numberToString maxAllowedProfilesPerIP))
    else
      .ok (calculateMinGameTime clampedNumProfiles)
  | .ok none =>
    let numProfiles := F.ProfilesPerIP.StaticProfiles
    let clampedNumProfiles := jsMathMin js numProfiles maxAllowedProfilesPerIP
    if jsGreater js numProfiles maxAllowedProfilesPerIP then
      .error (.error ("Invalid numProfiles value. Maximum allowed is "
        ++ js.numberToString maxAllowedProfilesPerIP))
    else
      .ok (calculateMinGameTime clampedNumProfiles)

/-- The function `calculateAndSetMinGameTime()`: the `try` block, and `return 180` in the
`catch` clause. -/
def calculateAndSetMinGameTime (js : Builtins) (F : FeaturesSettings) (meProfile : String) :
    Except JSError JSNumber :=
  match calculateAndSetMinGameTimeTry js F meProfile with
  | .ok minGameTime => .ok minGameTime
  | .error _ => .ok (.finite 180)

/-- Modelled from the spec: the colour constant `sdk.colors.D2Bot.Red`, declared outside
these sources; the spec names it an enumerated colour tag, red for errors. -/
inductive D2BotColor where
  | Red
deriving DecidableEq

/-- The console of the manager: the lines printed so far, each with its colour tag. -/
abbrev Console := List (String × D2BotColor)

/-- The call `D2Bot.printToConsole(msg, color)`: one more line on the console. -/
def printToConsole (msg : String) (color : D2BotColor) (console : Console) : Console :=
  console ++ [(msg, color)]

/-- The message `errorMsg` that `validateProfileIP` builds once the lookup has returned
`profileInArray`: empty when `numProfiles` passes the range test. -/
def validateProfileIPMessage (js : Builtins) (profileInArray : Option JSObject)
    (numProfiles : JSPrim) : String :=
  let maxAllowedValue : JSNumber := .finite 8
  let minNotAllowed : JSNumber := .finite 0
  if jsGreater js numProfiles maxAllowedValue || jsLess js numProfiles minNotAllowed then
    (match profileInArray with
      | some p =>
        "The value exceeds the allowable limits. For the profile "
          ++ toJSString js (getProp p "ProfileName")
          ++ ", which has an associated IP value of " ++ toJSString js (getProp p "IP")
      | none => "The value exceeds the allowable static limits.")
    ++ (if jsGreater js numProfiles maxAllowedValue then
        " The maximum allowable limit is " ++ js.numberToString maxAllowedValue
          ++ ". Using the default value of 3 minutes."
      else
        " The minimum allowable limit is 1. Using the default value of 3 minutes.")
  else
    ""

/-- The function `validateProfileIP(numProfiles)`, on the console as explicit state: the
lookup (which may throw), then at most one print. -/
def validateProfileIP (js : Builtins) (F : FeaturesSettings) (meProfile : String)
    (numProfiles : JSPrim) (console : Console) : Except JSError Console :=
  let profilesArray := F.ProfilesPerIP.ProfilesArray
  match find (profileMatches js meProfile) profilesArray with
  | .error e => .error e
  | .ok profileInArray =>
    let errorMsg := validateProfileIPMessage js profileInArray numProfiles
    if errorMsg ≠ "" then
      .ok (printToConsole errorMsg D2BotColor.Red console)
    else
      .ok console

/-! ## The functions on explicit state -/

/-- The mutable world the functions run in: the console of the manager and the settings
object `Features`. -/
structure World where
  console : Console
  Features : FeaturesSettings

/-- A computation on the world: it ends with a value or with a thrown exception, and leaves
a world in both cases (a `catch` clause resumes in the world left by the `throw`). -/
def Effect (α : Type) : Type := World → Except JSError α × World

namespace Effect

/-- Normal completion with a value. -/
def ret {α : Type} (a : α) : Effect α :=
  fun w => (.ok a, w)

/-- The statement `throw e`. -/
def raise {α : Type} (e : JSError) : Effect α :=
  fun w => (.error e, w)

/-- Sequencing: the second computation runs in the world left by the first, unless the
first threw. -/
def bind {α β : Type} (m : Effect α) (f : α → Effect β) : Effect β :=
  fun w =>
    match m w with
    | (.ok a, w1) => f a w1
    | (.error e, w1) => (.error e, w1)

/-- The statement `try body catch (error) handler`. -/
def tryCatch {α : Type} (body : Effect α) (handler : JSError → Effect α) : Effect α :=
  fun w =>
    match body w with
    | (.ok a, w1) => (.ok a, w1)
    | (.error e, w1) => handler e w1

/-- Reading the global `Features`. -/
def readFeatures : Effect FeaturesSettings :=
  fun w => (.ok w.Features, w)

/-- An expression without effect on the world, which may throw. -/
def ofExcept {α : Type} (r : Except JSError α) : Effect α :=
  fun w => (r, w)

/-- The call `D2Bot.printToConsole(msg, color)`. -/
def print (msg : String) (color : D2BotColor) : Effect Unit :=
  fun w => (.ok (), { w with console := printToConsole msg color w.console })

end Effect

/-- The function `calculateAndSetMinGameTime()` on the world: every read of `Features`,
the lookup, both `throw` statements and the `catch` clause, in the order of the source. -/
def calculateAndSetMinGameTimeEffect (js : Builtins) (meProfile : String) : Effect JSNumber :=
  let maxAllowedProfilesPerIP : JSNumber := .finite 8
  Effect.tryCatch
    (Effect.bind Effect.readFeatures fun F =>
      let profilesArray := F.ProfilesPerIP.ProfilesArray
      Effect.bind (Effect.ofExcept (find (profileMatches js meProfile) profilesArray))
        fun found =>
          match found with
          | some profileInArray =>
            let clampedNumProfiles :=
              jsMathMin js (getProp profileInArray "IP") maxAllowedProfilesPerIP
            if jsGreater js (getProp profileInArray "IP") maxAllowedProfilesPerIP then
              Effect.raise (.error ("Invalid IP value in ProfilesArray. Maximum allowed is "
                ++ js.numberToString maxAllowedProfilesPerIP))
            else
              Effect.ret (calculateMinGameTime clampedNumProfiles)
          | none =>
            Effect.bind Effect.readFeatures fun G =>
              let numProfiles := G.ProfilesPerIP.StaticProfiles
              let clampedNumProfiles := jsMathMin js numProfiles maxAllowedProfilesPerIP
              if jsGreater js numProfiles maxAllowedProfilesPerIP then
                Effect.raise (.error ("Invalid numProfiles value. Maximum allowed is "
                  ++ js.numberToString maxAllowedProfilesPerIP))
              else
                Effect.ret (calculateMinGameTime clampedNumProfiles))
    (fun _ => Effect.ret (.finite 180))

/-- The function `validateProfileIP(numProfiles)` on the world: the read of `Features`, the
lookup outside any `try`, and the print when `errorMsg` is not empty. -/
def validateProfileIPEffect (js : Builtins) (meProfile : String) (numProfiles : JSPrim) :
    Effect Unit :=
  Effect.bind Effect.readFeatures fun F =>
    let profilesArray := F.ProfilesPerIP.ProfilesArray
    Effect.bind (Effect.ofExcept (find (profileMatches js meProfile) profilesArray))
      fun profileInArray =>
        let errorMsg := validateProfileIPMessage js profileInArray numProfiles
        if errorMsg ≠ "" then
          Effect.print errorMsg D2BotColor.Red
        else
          Effect.ret ()

/-! ## Notions used to state the properties -/

/-- The value is a string. -/
def JSPrim.isString : JSPrim → Bool
  | .string _ => true
  | _ => false

/-- The value is a number with an integer value. -/
def JSPrim.isInteger : JSPrim → Bool
  | .number (.finite q) => q.isInt
  | _ => false

/-- A well-formed entry carries a `ProfileName` string and an integer `IP`. -/
def wellFormedEntry (entry : JSObject) : Bool :=
  (getProp entry "ProfileName").isString && (getProp entry "IP").isInteger

/-- The entry carries a `ProfileName` string equal to the active profile name after
upper-casing both. -/
def nameMatches (js : Builtins) (meProfile : String) (entry : JSObject) : Bool :=
  match getProp entry "ProfileName" with
  | .string name => js.toUpperCase name == js.toUpperCase meProfile
  | _ => false

/-- The entry matched for the active profile: the first entry of `ProfilesArray` whose name
matches ignoring case, if any. -/
def matchedEntry (js : Builtins) (F : FeaturesSettings) (meProfile : String) : Option JSObject :=
  F.ProfilesPerIP.ProfilesArray.find? (nameMatches js meProfile)

/-- The share count resolved for the active profile: the `IP` of the matched entry, or
`StaticProfiles` when no entry matches. -/
def resolvedShareCount (js : Builtins) (F : FeaturesSettings) (meProfile : String) : JSPrim :=
  match matchedEntry js F meProfile with
  | some entry => getProp entry "IP"
  | none => F.ProfilesPerIP.StaticProfiles

/-- The variant of `calculateMinGameTime` that uses `numProfiles` itself in place of the
clamped count `Math.min(numProfiles, 8)`, with the same three surcharges:
`600 + ((numProfiles - 1) * tier1 + tier2 + tier3)`. -/
def calculateMinGameTimeUnclamped (numProfiles : JSNumber) : JSNumber :=
  let tier1 : JSNumber :=
    if numProfiles.ge (.finite 2) && numProfiles.lt (.finite 3) then .finite 300 else .finite 0
  let tier2 : JSNumber :=
    if numProfiles.ge (.finite 3) && numProfiles.lt (.finite 4) then .finite 900 else .finite 0
  let tier3 : JSNumber :=
    if numProfiles.ge (.finite 4) && numProfiles.le (.finite 8) then .finite 1500 else .finite 0
  .finite 600 + ((numProfiles - .finite 1) * tier1 + tier2 + tier3)

/-! ## Evaluation lemmas -/

namespace JSNumber

@[simp] theorem finite_add (a b : ℚ) : finite a + finite b = finite (a + b) := rfl
@[simp] theorem finite_sub (a b : ℚ) : finite a - finite b = finite (a - b) := rfl
@[simp] theorem finite_mul (a b : ℚ) : finite a * finite b = finite (a * b) := rfl
@[simp] theorem nan_add (x : JSNumber) : nan + x = nan := rfl
@[simp] theorem add_nan (x : JSNumber) : x + nan = nan := by cases x <;> rfl
@[simp] theorem nan_sub (x : JSNumber) : nan - x = nan := rfl
@[simp] theorem nan_mul (x : JSNumber) : nan * x = nan := rfl
@[simp] theorem finite_gt (a b : ℚ) : (finite a).gt (finite b) = decide (b < a) := rfl
@[simp] theorem finite_ge (a b : ℚ) : (finite a).ge (finite b) = decide (b ≤ a) := rfl
@[simp] theorem finite_lt (a b : ℚ) : (finite a).lt (finite b) = decide (a < b) := rfl
@[simp] theorem finite_le (a b : ℚ) : (finite a).le (finite b) = decide (a ≤ b) := rfl
@[simp] theorem nan_gt (x : JSNumber) : nan.gt x = false := rfl
@[simp] theorem nan_ge (x : JSNumber) : nan.ge x = false := rfl
@[simp] theorem nan_lt (x : JSNumber) : nan.lt x = false := rfl
@[simp] theorem nan_le (x : JSNumber) : nan.le x = false := rfl
@[simp] theorem finite_mathMin (a b : ℚ) : (finite a).mathMin (finite b) = finite (min a b) := rfl
@[simp] theorem nan_mathMin (x : JSNumber) : nan.mathMin x = nan := rfl

end JSNumber

/-! ## calculateMinGameTime -/

/-- On a rational, `calculateMinGameTime` is the base of 600 plus the three surcharges. -/
theorem calculateMinGameTime_finite (q : ℚ) :
    calculateMinGameTime (.finite q) = .finite (600 + ((min q 8 - 1)
      * (if 2 ≤ q ∧ q < 3 then 300 else 0) + (if 3 ≤ q ∧ q < 4 then 900 else 0)
      + (if 4 ≤ q ∧ q ≤ 8 then 1500 else 0))) := by
  simp only [calculateMinGameTime, JSNumber.finite_ge, JSNumber.finite_lt, JSNumber.finite_le,
    JSNumber.finite_mathMin, Bool.and_eq_true, decide_eq_true_eq]
  split_ifs <;> simp

/-- On NaN every comparison fails and the arithmetic yields NaN. -/
theorem calculateMinGameTime_nan : calculateMinGameTime .nan = .nan := by
  simp [calculateMinGameTime]

/-- The value of `calculateMinGameTime` on a rational, by tier. -/
theorem calculateMinGameTime_tiers (q : ℚ) :
    calculateMinGameTime (.finite q) = .finite
      (if 2 ≤ q ∧ q < 3 then 600 + (q - 1) * 300
       else if 3 ≤ q ∧ q < 4 then 1500
       else if 4 ≤ q ∧ q ≤ 8 then 2100
       else 600) := by
  rw [calculateMinGameTime_finite]
  congr 1
  split_ifs <;> first
    | (exfalso; linarith [‹_ ∧ _›.1, ‹_ ∧ _›.2])
    | (rw [min_eq_left (by linarith [‹_ ∧ _›.1, ‹_ ∧ _›.2] : q ≤ 8)]; ring)
    | norm_num

/-- C1: for every integer `numProfiles`, `calculateMinGameTime(numProfiles)` is 900 at 2,
1500 at 3, 2100 from 4 to 8 and 600 in every other case. -/
theorem calculateMinGameTime_int (numProfiles : ℤ) :
    calculateMinGameTime (.finite numProfiles) = .finite
      (if numProfiles = 2 then 900
       else if numProfiles = 3 then 1500
       else if 4 ≤ numProfiles ∧ numProfiles ≤ 8 then 2100
       else 600) := by
  rw [calculateMinGameTime_tiers]
  congr 1
  have c2 : ((2 : ℤ) : ℚ) = 2 := by norm_num
  have c3 : ((3 : ℤ) : ℚ) = 3 := by norm_num
  have c4 : ((4 : ℤ) : ℚ) = 4 := by norm_num
  have c8 : ((8 : ℤ) : ℚ) = 8 := by norm_num
  have e2 : (2 ≤ (numProfiles : ℚ) ∧ (numProfiles : ℚ) < 3) ↔ numProfiles = 2 := by
    rw [← c2, ← c3, Int.cast_le, Int.cast_lt]; omega
  have e3 : (3 ≤ (numProfiles : ℚ) ∧ (numProfiles : ℚ) < 4) ↔ numProfiles = 3 := by
    rw [← c3, ← c4, Int.cast_le, Int.cast_lt]; omega
  have e4 : (4 ≤ (numProfiles : ℚ) ∧ (numProfiles : ℚ) ≤ 8) ↔ (4 ≤ numProfiles ∧ numProfiles ≤ 8) := by
    rw [← c4, ← c8, Int.cast_le, Int.cast_le]
  simp only [e2, e3, e4]
  split_ifs with h
  · subst h; norm_num
  all_goals rfl

/-! ## The lookup -/

/-- On an entry with a `ProfileName` string the callback returns without throwing, with
the case-insensitive comparison of the names. -/
theorem profileMatches_of_isString (js : Builtins) (meProfile : String) (entry : JSObject)
    (h : (getProp entry "ProfileName").isString = true) :
    profileMatches js meProfile entry = .ok (nameMatches js meProfile entry) := by
  unfold profileMatches nameMatches
  cases hp : getProp entry "ProfileName" <;> simp_all [JSPrim.isString, callToUpperCase]

/-- On an entry without a `ProfileName` string the callback throws a `TypeError`. -/
theorem profileMatches_of_not_isString (js : Builtins) (meProfile : String) (entry : JSObject)
    (h : (getProp entry "ProfileName").isString = false) :
    profileMatches js meProfile entry = .error .typeError := by
  unfold profileMatches
  cases hp : getProp entry "ProfileName" <;> simp_all [JSPrim.isString, callToUpperCase]

/-- Whenever the callback returns, it returns the case-insensitive comparison. -/
theorem profileMatches_ok (js : Builtins) (meProfile : String) (entry : JSObject) (b : Bool)
    (h : profileMatches js meProfile entry = .ok b) : nameMatches js meProfile entry = b := by
  cases hs : (getProp entry "ProfileName").isString
  · rw [profileMatches_of_not_isString js meProfile entry hs] at h; cases h
  · rw [profileMatches_of_isString js meProfile entry hs] at h; cases h; rfl

/-- Whenever the lookup returns, it returns the first entry whose name matches. -/
theorem find_profileMatches_ok (js : Builtins) (meProfile : String) (arr : List JSObject)
    (r : Option JSObject) (h : find (profileMatches js meProfile) arr = .ok r) :
    arr.find? (nameMatches js meProfile) = r := by
  induction arr with
  | nil => simp [find] at h; simp [h]
  | cons x xs ih =>
    unfold find at h
    cases hx : profileMatches js meProfile x with
    | error e => rw [hx] at h; cases h
    | ok b =>
      have hb := profileMatches_ok js meProfile x b hx
      rw [hx] at h
      cases b with
      | true => cases h; simp [List.find?, hb]
      | false => simp only [List.find?, hb]; exact ih h

/-- On an array whose entries all carry a `ProfileName` string the lookup returns, with the
first entry whose name matches. -/
theorem find_profileMatches_of_isString (js : Builtins) (meProfile : String)
    (arr : List JSObject) (h : ∀ x ∈ arr, (getProp x "ProfileName").isString = true) :
    find (profileMatches js meProfile) arr = .ok (arr.find? (nameMatches js meProfile)) := by
  induction arr with
  | nil => rfl
  | cons x xs ih =>
    have hx := profileMatches_of_isString js meProfile x (h x (List.mem_cons_self x xs))
    have hxs := ih (fun y hy => h y (List.mem_cons_of_mem x hy))
    unfold find
    rw [hx]
    cases hb : nameMatches js meProfile x <;> simp [List.find?, hb, hxs]

/-- A well-formed entry carries a `ProfileName` string. -/
theorem isString_of_wellFormedEntry (entry : JSObject) (h : wellFormedEntry entry = true) :
    (getProp entry "ProfileName").isString = true := by
  simp only [wellFormedEntry, Bool.and_eq_true] at h
  exact h.1

/-- The lookup of `calculateAndSetMinGameTime` on well-formed entries. -/
theorem find_profileMatches_of_wellFormed (js : Builtins) (F : FeaturesSettings)
    (meProfile : String) (h : ∀ x ∈ F.ProfilesPerIP.ProfilesArray, wellFormedEntry x = true) :
    find (profileMatches js meProfile) F.ProfilesPerIP.ProfilesArray
      = .ok (matchedEntry js F meProfile) :=
  find_profileMatches_of_isString js meProfile _
    (fun x hx => isString_of_wellFormedEntry x (h x hx))

/-- Entries on which the callback returns false are skipped by the lookup. -/
theorem find_append_of_skipped {α : Type} (callback : α → Except JSError Bool)
    (pre rest : List α) (h : ∀ x ∈ pre, callback x = .ok false) :
    find callback (pre ++ rest) = find callback rest := by
  induction pre with
  | nil => rfl
  | cons x xs ih =>
    have hx := h x (List.mem_cons_self x xs)
    have hxs := ih (fun y hy => h y (List.mem_cons_of_mem x hy))
    simp only [List.cons_append]
    rw [find, hx]
    exact hxs

/-! ## calculateAndSetMinGameTime -/

/-- The range test and the clamp on a rational no greater than 8. -/
theorem clamp_of_le (js : Builtins) (q : ℚ) (h : q ≤ 8) :
    jsGreater js (.number (.finite q)) (.finite 8) = false
      ∧ jsMathMin js (.number (.finite q)) (.finite 8) = .finite q := by
  constructor
  · simp [jsGreater, toNumber, h]
  · simp [jsMathMin, toNumber, h]

/-- The result when the lookup returns an entry whose `IP` is a rational no greater than 8. -/
theorem calculateAndSetMinGameTime_of_find_some (js : Builtins) (F : FeaturesSettings)
    (meProfile : String) (entry : JSObject) (q : ℚ)
    (hfind : find (profileMatches js meProfile) F.ProfilesPerIP.ProfilesArray = .ok (some entry))
    (hip : getProp entry "IP" = .number (.finite q)) (hle : q ≤ 8) :
    calculateAndSetMinGameTime js F meProfile = .ok (calculateMinGameTime (.finite q)) := by
  obtain ⟨h1, h2⟩ := clamp_of_le js q hle
  simp [calculateAndSetMinGameTime, calculateAndSetMinGameTimeTry, hfind, hip, h1, h2]

/-- The result when the lookup returns no entry and `StaticProfiles` is a rational no
greater than 8. -/
theorem calculateAndSetMinGameTime_of_find_none (js : Builtins) (F : FeaturesSettings)
    (meProfile : String) (q : ℚ)
    (hfind : find (profileMatches js meProfile) F.ProfilesPerIP.ProfilesArray = .ok none)
    (hstatic : F.ProfilesPerIP.StaticProfiles = .number (.finite q)) (hle : q ≤ 8) :
    calculateAndSetMinGameTime js F meProfile = .ok (calculateMinGameTime (.finite q)) := by
  obtain ⟨h1, h2⟩ := clamp_of_le js q hle
  simp [calculateAndSetMinGameTime, calculateAndSetMinGameTimeTry, hfind, hstatic, h1, h2]

/-- The result when the lookup throws. -/
theorem calculateAndSetMinGameTime_of_find_error (js : Builtins) (F : FeaturesSettings)
    (meProfile : String) (err : JSError)
    (hfind : find (profileMatches js meProfile) F.ProfilesPerIP.ProfilesArray = .error err) :
    calculateAndSetMinGameTime js F meProfile = .ok (.finite 180) := by
  simp [calculateAndSetMinGameTime, calculateAndSetMinGameTimeTry, hfind]

/-- The result when the body of the `try` block throws. -/
theorem calculateAndSetMinGameTime_of_try_error (js : Builtins) (F : FeaturesSettings)
    (meProfile : String) (err : JSError)
    (h : calculateAndSetMinGameTimeTry js F meProfile = .error err) :
    calculateAndSetMinGameTime js F meProfile = .ok (.finite 180) := by
  simp [calculateAndSetMinGameTime, h]

/-- No input makes `calculateMinGameTime` return 180: its value is NaN or at least 600. -/
theorem calculateMinGameTime_ne_fallback (x : JSNumber) :
    calculateMinGameTime x ≠ .finite 180 := by
  cases x with
  | nan => rw [calculateMinGameTime_nan]; simp
  | finite q =>
    rw [calculateMinGameTime_tiers]
    intro h
    injection h with h
    split_ifs at h with h2 h3 h4 <;> first
      | linarith [h2.1]
      | (norm_num at h)

/-- C2: on an array of well-formed entries, when the active profile matches an entry whose
`IP` is an integer no greater than 8, the result is `calculateMinGameTime` of that `IP`,
whatever the value of `StaticProfiles`. -/
theorem calculateAndSetMinGameTime_matched (js : Builtins) (StaticProfiles : JSPrim)
    (ProfilesArray : List JSObject) (meProfile : String) (entry : JSObject) (ip : ℤ)
    (hwf : ∀ x ∈ ProfilesArray, wellFormedEntry x = true)
    (hmatch : matchedEntry js ⟨⟨StaticProfiles, ProfilesArray⟩⟩ meProfile = some entry)
    (hip : getProp entry "IP" = .number (.finite ip)) (hle : ip ≤ 8) :
    calculateAndSetMinGameTime js ⟨⟨StaticProfiles, ProfilesArray⟩⟩ meProfile
      = .ok (calculateMinGameTime (.finite ip)) := by
  have hfind := find_profileMatches_of_wellFormed js ⟨⟨StaticProfiles, ProfilesArray⟩⟩
    meProfile hwf
  rw [hmatch] at hfind
  exact calculateAndSetMinGameTime_of_find_some js _ meProfile entry ip hfind hip
    (by exact_mod_cast hle)

/-- C3: on an array of well-formed entries none of which matches the active profile, the
result is `calculateMinGameTime(StaticProfiles)` whenever `StaticProfiles` is no greater
than 8; it is not the fallback of 180. -/
theorem calculateAndSetMinGameTime_unmatched (js : Builtins) (StaticProfiles : ℚ)
    (ProfilesArray : List JSObject) (meProfile : String)
    (hwf : ∀ x ∈ ProfilesArray, wellFormedEntry x = true)
    (hnone : matchedEntry js ⟨⟨.number (.finite StaticProfiles), ProfilesArray⟩⟩ meProfile
      = none)
    (hle : StaticProfiles ≤ 8) :
    calculateAndSetMinGameTime js ⟨⟨.number (.finite StaticProfiles), ProfilesArray⟩⟩ meProfile
        = .ok (calculateMinGameTime (.finite StaticProfiles))
      ∧ calculateAndSetMinGameTime js ⟨⟨.number (.finite StaticProfiles), ProfilesArray⟩⟩
          meProfile ≠ .ok (.finite 180) := by
  have hfind := find_profileMatches_of_wellFormed js
    ⟨⟨.number (.finite StaticProfiles), ProfilesArray⟩⟩ meProfile hwf
  rw [hnone] at hfind
  have hres := calculateAndSetMinGameTime_of_find_none js _ meProfile StaticProfiles hfind rfl hle
  refine ⟨hres, ?_⟩
  rw [hres]
  intro h
  injection h with h
  exact calculateMinGameTime_ne_fallback _ h

/-- The fallback is returned whenever the resolved share count is greater than 8. -/
theorem calculateAndSetMinGameTime_of_resolved_gt (js : Builtins) (F : FeaturesSettings)
    (meProfile : String)
    (h : jsGreater js (resolvedShareCount js F meProfile) (.finite 8) = true) :
    calculateAndSetMinGameTime js F meProfile = .ok (.finite 180) := by
  cases hfind : find (profileMatches js meProfile) F.ProfilesPerIP.ProfilesArray with
  | error err => exact calculateAndSetMinGameTime_of_find_error js F meProfile err hfind
  | ok r =>
    have hr := find_profileMatches_ok js meProfile _ r hfind
    cases r with
    | none =>
      simp only [resolvedShareCount, matchedEntry, hr] at h
      simp [calculateAndSetMinGameTime, calculateAndSetMinGameTimeTry, hfind, h]
    | some entry =>
      simp only [resolvedShareCount, matchedEntry, hr] at h
      simp [calculateAndSetMinGameTime, calculateAndSetMinGameTimeTry, hfind, h]

/-- C4: whenever the share count resolved for the active profile is greater than 8, the
result is exactly 180, and it is not the value `calculateMinGameTime` has on the clamped
count. -/
theorem calculateAndSetMinGameTime_above_max (js : Builtins) (F : FeaturesSettings)
    (meProfile : String)
    (h : jsGreater js (resolvedShareCount js F meProfile) (.finite 8) = true) :
    calculateAndSetMinGameTime js F meProfile = .ok (.finite 180)
      ∧ calculateAndSetMinGameTime js F meProfile
        ≠ .ok (calculateMinGameTime
            (jsMathMin js (resolvedShareCount js F meProfile) (.finite 8))) := by
  have key := calculateAndSetMinGameTime_of_resolved_gt js F meProfile h
  refine ⟨key, ?_⟩
  rw [key]
  intro hc
  injection hc with hc
  exact calculateMinGameTime_ne_fallback _ hc.symm

/-- C2 at a concrete input: the second entry matches ignoring case, its `IP` is 2, and
`StaticProfiles` is 9. -/
theorem calculateAndSetMinGameTime_matched_witness :
    calculateAndSetMinGameTime asciiBuiltins
      ⟨⟨.number (.finite 9), [mkEntry "Other" (.number (.finite 1)),
        mkEntry "sCl-ExAmpLE" (.number (.finite 2))]⟩⟩ "SCL-EXAMPLE"
      = .ok (calculateMinGameTime (.finite ((2 : ℤ) : ℚ))) :=
  calculateAndSetMinGameTime_matched asciiBuiltins (.number (.finite 9))
    [mkEntry "Other" (.number (.finite 1)), mkEntry "sCl-ExAmpLE" (.number (.finite 2))]
    "SCL-EXAMPLE" (mkEntry "sCl-ExAmpLE" (.number (.finite 2))) 2
    (by decide) (by decide) (by decide) (by decide)

/-- C3 at a concrete input: no entry matches and `StaticProfiles` is 3. -/
theorem calculateAndSetMinGameTime_unmatched_witness :
    calculateAndSetMinGameTime asciiBuiltins
        ⟨⟨.number (.finite 3), [mkEntry "Other" (.number (.finite 1))]⟩⟩ "SCL-EXAMPLE"
        = .ok (calculateMinGameTime (.finite 3))
      ∧ calculateAndSetMinGameTime asciiBuiltins
          ⟨⟨.number (.finite 3), [mkEntry "Other" (.number (.finite 1))]⟩⟩ "SCL-EXAMPLE"
          ≠ .ok (.finite 180) :=
  calculateAndSetMinGameTime_unmatched asciiBuiltins 3
    [mkEntry "Other" (.number (.finite 1))] "SCL-EXAMPLE" (by decide) (by decide) (by norm_num)

/-- C4 at a concrete input: the matched entry has an `IP` of 9. -/
theorem calculateAndSetMinGameTime_above_max_witness :
    calculateAndSetMinGameTime asciiBuiltins
        ⟨⟨.number (.finite 1), [mkEntry "sCl-ExAmpLE" (.number (.finite 9))]⟩⟩ "SCL-EXAMPLE"
        = .ok (.finite 180) :=
  (calculateAndSetMinGameTime_above_max asciiBuiltins
    ⟨⟨.number (.finite 1), [mkEntry "sCl-ExAmpLE" (.number (.finite 9))]⟩⟩ "SCL-EXAMPLE"
    (by decide)).1

/-- The lookup stops with a `TypeError` at the first entry without a `ProfileName` string,
when the entries before it are skipped. -/
theorem find_error_of_malformed (js : Builtins) (meProfile : String)
    (pre post : List JSObject) (entry : JSObject)
    (hpre : ∀ x ∈ pre, profileMatches js meProfile x = .ok false)
    (hbad : (getProp entry "ProfileName").isString = false) :
    find (profileMatches js meProfile) (pre ++ entry :: post) = .error .typeError := by
  rw [find_append_of_skipped _ pre _ hpre, find,
    profileMatches_of_not_isString js meProfile entry hbad]

/-- C5: the lookup is case-insensitive. An entry whose name equals the active profile name
after upper-casing both is the one the lookup returns (the entries before it carrying names
that do not match), and when its `IP` is an integer no greater than 8 the result is
`calculateMinGameTime` of that `IP`, whatever `StaticProfiles` is. -/
theorem lookup_case_insensitive (js : Builtins) (StaticProfiles : JSPrim)
    (pre post : List JSObject) (entry : JSObject) (name meProfile : String)
    (hpre : ∀ x ∈ pre, (getProp x "ProfileName").isString = true
      ∧ nameMatches js meProfile x = false)
    (hname : getProp entry "ProfileName" = .string name)
    (hupper : js.toUpperCase name = js.toUpperCase meProfile) :
    find (profileMatches js meProfile) (pre ++ entry :: post) = .ok (some entry)
      ∧ ∀ ip : ℤ, getProp entry "IP" = .number (.finite ip) → ip ≤ 8 →
        calculateAndSetMinGameTime js ⟨⟨StaticProfiles, pre ++ entry :: post⟩⟩ meProfile
          = .ok (calculateMinGameTime (.finite ip)) := by
  have hfind : find (profileMatches js meProfile) (pre ++ entry :: post)
      = .ok (some entry) := by
    rw [find_append_of_skipped _ pre _ (fun x hx => by
      rw [profileMatches_of_isString js meProfile x (hpre x hx).1, (hpre x hx).2])]
    have hs : (getProp entry "ProfileName").isString = true := by rw [hname]; rfl
    rw [find, profileMatches_of_isString js meProfile entry hs]
    simp [nameMatches, hname, hupper]
  refine ⟨hfind, fun ip hip hle => ?_⟩
  exact calculateAndSetMinGameTime_of_find_some js ⟨⟨StaticProfiles, pre ++ entry :: post⟩⟩
    meProfile entry ip hfind hip (by exact_mod_cast hle)

/-- C5 at the input of the spec: entry `sCl-ExAmpLE` with an `IP` of 2, active profile
`SCL-EXAMPLE`, `StaticProfiles` 3. -/
theorem lookup_case_insensitive_witness :
    asciiUpper "sCl-ExAmpLE" = asciiUpper "SCL-EXAMPLE"
      ∧ calculateAndSetMinGameTime asciiBuiltins
        ⟨⟨.number (.finite 3), [mkEntry "sCl-ExAmpLE" (.number (.finite 2))]⟩⟩ "SCL-EXAMPLE"
        = .ok (calculateMinGameTime (.finite ((2 : ℤ) : ℚ))) :=
  ⟨by decide,
    (lookup_case_insensitive asciiBuiltins (.number (.finite 3)) [] []
      (mkEntry "sCl-ExAmpLE" (.number (.finite 2))) "sCl-ExAmpLE" "SCL-EXAMPLE"
      (by simp) (by decide) (by decide)).2 2 (by decide) (by decide)⟩

/-- C6: `calculateAndSetMinGameTime` never raises. For every configuration and active
profile name it returns a number; it returns 180 whenever the lookup throws, whenever the
`try` block throws, whenever the resolved share count fails the range check, and in
particular whenever the lookup reaches an entry without a `ProfileName` string. -/
theorem calculateAndSetMinGameTime_never_raises (js : Builtins) (F : FeaturesSettings)
    (meProfile : String) :
    (∃ n : JSNumber, calculateAndSetMinGameTime js F meProfile = .ok n)
      ∧ (∀ err, find (profileMatches js meProfile) F.ProfilesPerIP.ProfilesArray = .error err →
          calculateAndSetMinGameTime js F meProfile = .ok (.finite 180))
      ∧ (∀ err, calculateAndSetMinGameTimeTry js F meProfile = .error err →
          calculateAndSetMinGameTime js F meProfile = .ok (.finite 180))
      ∧ (jsGreater js (resolvedShareCount js F meProfile) (.finite 8) = true →
          calculateAndSetMinGameTime js F meProfile = .ok (.finite 180))
      ∧ (∀ pre entry post, F.ProfilesPerIP.ProfilesArray = pre ++ entry :: post →
          (∀ x ∈ pre, profileMatches js meProfile x = .ok false) →
          (getProp entry "ProfileName").isString = false →
          calculateAndSetMinGameTime js F meProfile = .ok (.finite 180)) := by
  refine ⟨?_, ?_, ?_, ?_, ?_⟩
  · unfold calculateAndSetMinGameTime
    cases calculateAndSetMinGameTimeTry js F meProfile with
    | error err => exact ⟨_, rfl⟩
    | ok n => exact ⟨n, rfl⟩
  · exact fun err h => calculateAndSetMinGameTime_of_find_error js F meProfile err h
  · exact fun err h => calculateAndSetMinGameTime_of_try_error js F meProfile err h
  · exact calculateAndSetMinGameTime_of_resolved_gt js F meProfile
  · intro pre entry post harr hpre hbad
    have hfind := find_error_of_malformed js meProfile pre post entry hpre hbad
    rw [← harr] at hfind
    exact calculateAndSetMinGameTime_of_find_error js F meProfile _ hfind

/-- C6 at a concrete input: the second entry has a number for `ProfileName`. -/
theorem calculateAndSetMinGameTime_never_raises_witness :
    calculateAndSetMinGameTime asciiBuiltins
      ⟨⟨.number (.finite 1), [mkEntry "Other" (.number (.finite 1)),
        [("ProfileName", .number (.finite 5)), ("IP", .number (.finite 2))]]⟩⟩ "SCL-EXAMPLE"
      = .ok (.finite 180) :=
  (calculateAndSetMinGameTime_never_raises asciiBuiltins
    ⟨⟨.number (.finite 1), [mkEntry "Other" (.number (.finite 1)),
        [("ProfileName", .number (.finite 5)), ("IP", .number (.finite 2))]]⟩⟩
    "SCL-EXAMPLE").2.2.2.2 [mkEntry "Other" (.number (.finite 1))]
    [("ProfileName", .number (.finite 5)), ("IP", .number (.finite 2))] [] rfl
    (fun x hx => by rw [List.mem_singleton] at hx; subst hx; rfl) (by decide)

/-- The number returned can be NaN: on a matching entry without an `IP` property the clamp
`Math.min(undefined, 8)` is NaN, the range test fails to fire and `calculateMinGameTime`
returns NaN. -/
theorem calculateAndSetMinGameTime_missing_IP (js : Builtins) (StaticProfiles : JSPrim)
    (name meProfile : String) (rest : List JSObject)
    (hupper : js.toUpperCase name = js.toUpperCase meProfile) :
    calculateAndSetMinGameTime js
      ⟨⟨StaticProfiles, [("ProfileName", .string name)] :: rest⟩⟩ meProfile = .ok .nan := by
  have hfind : find (profileMatches js meProfile) ([("ProfileName", .string name)] :: rest)
      = .ok (some [("ProfileName", .string name)]) := by
    simp [find, profileMatches, getProp, List.lookup, callToUpperCase, hupper]
  simp [calculateAndSetMinGameTime, calculateAndSetMinGameTimeTry, hfind, getProp, List.lookup,
    jsGreater, jsMathMin, toNumber, calculateMinGameTime_nan]

/-! ## validateProfileIP -/

/-- A concatenation is non-empty as soon as its right part is. -/
theorem append_ne_empty_of_right (a b : String) (h : b ≠ "") : a ++ b ≠ "" := by
  intro hab
  apply h
  have hd := congrArg String.data hab
  rw [String.data_append] at hd
  have hb : b.data = [] := (List.append_eq_nil.mp hd).2
  exact String.ext hb

/-- A concatenation is non-empty as soon as its left part is. -/
theorem append_ne_empty_of_left (a b : String) (h : a ≠ "") : a ++ b ≠ "" := by
  intro hab
  apply h
  have hd := congrArg String.data hab
  rw [String.data_append] at hd
  have ha : a.data = [] := (List.append_eq_nil.mp hd).1
  exact String.ext ha

/-- The message is empty exactly when `numProfiles` passes the range test of the code,
`numProfiles > 8 || numProfiles < 0`. -/
theorem validateProfileIPMessage_eq_empty_iff (js : Builtins) (profileInArray : Option JSObject)
    (numProfiles : JSPrim) :
    validateProfileIPMessage js profileInArray numProfiles = ""
      ↔ (jsGreater js numProfiles (.finite 8) = false
        ∧ jsLess js numProfiles (.finite 0) = false) := by
  cases hgt : jsGreater js numProfiles (.finite 8) <;>
    cases hlt : jsLess js numProfiles (.finite 0) <;>
    simp only [validateProfileIPMessage, hgt, hlt, Bool.or_false, Bool.or_true, Bool.or_self,
      Bool.false_eq_true, if_true, if_false, and_self, and_false, false_and, iff_false,
      Bool.true_eq_false]
  · exact append_ne_empty_of_right _ _ (by decide)
  · exact append_ne_empty_of_right _ _
      (append_ne_empty_of_left _ _ (append_ne_empty_of_left _ _ (by decide)))
  · exact append_ne_empty_of_right _ _
      (append_ne_empty_of_left _ _ (append_ne_empty_of_left _ _ (by decide)))

/-- When the lookup returns, `validateProfileIP` leaves the console as it is exactly when
`numProfiles` passes the range test, and prints one red line otherwise. -/
theorem validateProfileIP_of_find_ok (js : Builtins) (F : FeaturesSettings) (meProfile : String)
    (numProfiles : JSPrim) (console : Console) (r : Option JSObject)
    (hfind : find (profileMatches js meProfile) F.ProfilesPerIP.ProfilesArray = .ok r) :
    validateProfileIP js F meProfile numProfiles console
      = .ok (if jsGreater js numProfiles (.finite 8) = false
            ∧ jsLess js numProfiles (.finite 0) = false
          then console
          else console ++ [(validateProfileIPMessage js r numProfiles, D2BotColor.Red)]) := by
  have hiff := validateProfileIPMessage_eq_empty_iff js r numProfiles
  simp only [validateProfileIP, hfind, printToConsole]
  by_cases hm : validateProfileIPMessage js r numProfiles = ""
  · rw [if_neg (not_not.mpr hm), if_pos (hiff.mp hm)]
  · rw [if_pos hm, if_neg (fun h => hm (hiff.mpr h))]

/-- C7: at `numProfiles = 0`, outside the range from 1 to 8, `validateProfileIP` prints
nothing: the test of the code is `numProfiles > 8 || numProfiles < 0`, which 0 passes. It
does print at 9 and at -1, and prints nothing from 1 to 8. -/
theorem validateProfileIP_zero_silent (js : Builtins) (meProfile : String) (console : Console) :
    validateProfileIP js Features meProfile (.number (.finite 0)) console = .ok console
      ∧ validateProfileIP js Features meProfile (.number (.finite 9)) console
        = .ok (console ++ [(validateProfileIPMessage js none (.number (.finite 9)),
            D2BotColor.Red)])
      ∧ validateProfileIP js Features meProfile (.number (.finite (-1))) console
        = .ok (console ++ [(validateProfileIPMessage js none (.number (.finite (-1))),
            D2BotColor.Red)])
      ∧ ∀ n : ℤ, 1 ≤ n → n ≤ 8 →
        validateProfileIP js Features meProfile (.number (.finite n)) console = .ok console := by
  have hfind : find (profileMatches js meProfile) Features.ProfilesPerIP.ProfilesArray
      = .ok none := rfl
  refine ⟨?_, ?_, ?_, ?_⟩
  · rw [validateProfileIP_of_find_ok js Features meProfile _ console none hfind]
    simp [jsGreater, jsLess, toNumber]
  · rw [validateProfileIP_of_find_ok js Features meProfile _ console none hfind]
    norm_num [jsGreater, jsLess, toNumber]
  · rw [validateProfileIP_of_find_ok js Features meProfile _ console none hfind]
    norm_num [jsGreater, jsLess, toNumber]
  · intro n h1 h8
    have h0 : (0 : ℤ) ≤ n := by omega
    have h8q : (n : ℚ) ≤ 8 := by exact_mod_cast h8
    rw [validateProfileIP_of_find_ok js Features meProfile _ console none hfind]
    simp [jsGreater, jsLess, toNumber, h0, h8q]

/-- C8: on every rational `calculateMinGameTime` returns a rational that is at least 600,
and on every integer it returns an integer. -/
theorem calculateMinGameTime_ge_base :
    (∀ q : ℚ, ∃ r : ℚ, calculateMinGameTime (.finite q) = .finite r ∧ 600 ≤ r)
      ∧ (∀ n : ℤ, ∃ m : ℤ, calculateMinGameTime (.finite n) = .finite m) := by
  constructor
  · intro q
    refine ⟨_, calculateMinGameTime_tiers q, ?_⟩
    split_ifs with h2 h3 h4
    · nlinarith [h2.1]
    · norm_num
    · norm_num
    · norm_num
  · intro n
    have hn := calculateMinGameTime_tiers n
    by_cases h2 : 2 ≤ (n : ℚ) ∧ (n : ℚ) < 3
    · rw [if_pos h2] at hn
      exact ⟨600 + (n - 1) * 300, by rw [hn]; push_cast; rfl⟩
    · rw [if_neg h2] at hn
      by_cases h3 : 3 ≤ (n : ℚ) ∧ (n : ℚ) < 4
      · rw [if_pos h3] at hn
        exact ⟨1500, by rw [hn]; norm_num⟩
      · rw [if_neg h3] at hn
        by_cases h4 : 4 ≤ (n : ℚ) ∧ (n : ℚ) ≤ 8
        · rw [if_pos h4] at hn
          exact ⟨2100, by rw [hn]; norm_num⟩
        · rw [if_neg h4] at hn
          exact ⟨600, by rw [hn]; norm_num⟩

/-- C9: on an array whose first entry has the shape documented in `Settings.js`,
`{ Profile: name, IPs: n }`, the lookup of `validateProfileIP` throws a `TypeError`, which
nothing catches: the function raises, whatever `numProfiles` is. -/
theorem validateProfileIP_raises_on_documented_entry (js : Builtins) (StaticProfiles : JSPrim)
    (name : String) (n : ℚ) (rest : List JSObject) (meProfile : String) (numProfiles : JSPrim)
    (console : Console) :
    validateProfileIP js ⟨⟨StaticProfiles, documentedEntry name n :: rest⟩⟩ meProfile
      numProfiles console = .error .typeError := by
  have hfind := find_error_of_malformed js meProfile [] rest (documentedEntry name n)
    (fun x hx => by cases hx) (by simp [documentedEntry, getProp, List.lookup, JSPrim.isString])
  simp only [List.nil_append] at hfind
  simp [validateProfileIP, hfind]

/-- C10: on an array whose first entry has the shape documented in `Settings.js`,
`{ Profile: name, IPs: n }`, the result is the fallback of 180 for every active profile
name, and not `calculateMinGameTime(n)`: the code reads `ProfileName` and `IP`. -/
theorem calculateAndSetMinGameTime_documented_entry (js : Builtins) (StaticProfiles : JSPrim)
    (name : String) (n : ℚ) (rest : List JSObject) (meProfile : String) :
    calculateAndSetMinGameTime js ⟨⟨StaticProfiles, documentedEntry name n :: rest⟩⟩ meProfile
        = .ok (.finite 180)
      ∧ calculateAndSetMinGameTime js ⟨⟨StaticProfiles, documentedEntry name n :: rest⟩⟩
          meProfile ≠ .ok (calculateMinGameTime (.finite n)) := by
  have hfind := find_error_of_malformed js meProfile [] rest (documentedEntry name n)
    (fun x hx => by cases hx) (by simp [documentedEntry, getProp, List.lookup, JSPrim.isString])
  simp only [List.nil_append] at hfind
  have key := calculateAndSetMinGameTime_of_find_error js
    ⟨⟨StaticProfiles, documentedEntry name n :: rest⟩⟩ meProfile _ hfind
  refine ⟨key, ?_⟩
  rw [key]
  intro hc
  injection hc with hc
  exact calculateMinGameTime_ne_fallback _ hc.symm

/-! ## The shipped settings, monotonicity and the clamp -/

/-- C12: with `Features` as shipped in `Settings.js` (`StaticProfiles` 1 and an empty
`ProfilesArray`) the result is 600 seconds for every active profile name. -/
theorem calculateAndSetMinGameTime_shipped (js : Builtins) (meProfile : String) :
    calculateAndSetMinGameTime js Features meProfile = .ok (.finite 600) := by
  have hfind : find (profileMatches js meProfile) Features.ProfilesPerIP.ProfilesArray
      = .ok none := rfl
  rw [calculateAndSetMinGameTime_of_find_none js Features meProfile 1 hfind rfl (by norm_num),
    calculateMinGameTime_tiers]
  norm_num

/-- The tier a rational no greater than 8 falls in, with the value of the tier expression. -/
theorem tiers_cases (q : ℚ) (h8 : q ≤ 8) :
    ∃ v : ℚ, (if 2 ≤ q ∧ q < 3 then 600 + (q - 1) * 300
        else if 3 ≤ q ∧ q < 4 then 1500
        else if 4 ≤ q ∧ q ≤ 8 then 2100
        else 600) = v
      ∧ ((q < 2 ∧ v = 600) ∨ (2 ≤ q ∧ q < 3 ∧ v = 600 + (q - 1) * 300)
        ∨ (3 ≤ q ∧ q < 4 ∧ v = 1500) ∨ (4 ≤ q ∧ v = 2100)) := by
  rcases lt_or_le q 2 with h2 | h2
  · refine ⟨600, ?_, Or.inl ⟨h2, rfl⟩⟩
    rw [if_neg (fun h => by linarith [h.1]), if_neg (fun h => by linarith [h.1]),
      if_neg (fun h => by linarith [h.1])]
  · rcases lt_or_le q 3 with h3 | h3
    · exact ⟨_, if_pos ⟨h2, h3⟩, Or.inr (Or.inl ⟨h2, h3, rfl⟩)⟩
    · rcases lt_or_le q 4 with h4 | h4
      · refine ⟨1500, ?_, Or.inr (Or.inr (Or.inl ⟨h3, h4, rfl⟩))⟩
        rw [if_neg (fun h => by linarith [h.2]), if_pos ⟨h3, h4⟩]
      · refine ⟨2100, ?_, Or.inr (Or.inr (Or.inr ⟨h4, rfl⟩))⟩
        rw [if_neg (fun h => by linarith [h.2]), if_neg (fun h => by linarith [h.2]),
          if_pos ⟨h4, h8⟩]

/-- The value of `calculateMinGameTime` is monotone on the rationals up to 8. -/
theorem calculateMinGameTime_tiers_mono (a b : ℚ) (hab : a ≤ b) (hb : b ≤ 8) :
    (if 2 ≤ a ∧ a < 3 then 600 + (a - 1) * 300
      else if 3 ≤ a ∧ a < 4 then 1500
      else if 4 ≤ a ∧ a ≤ 8 then 2100
      else (600 : ℚ))
    ≤ (if 2 ≤ b ∧ b < 3 then 600 + (b - 1) * 300
      else if 3 ≤ b ∧ b < 4 then 1500
      else if 4 ≤ b ∧ b ≤ 8 then 2100
      else (600 : ℚ)) := by
  obtain ⟨va, hva, hca⟩ := tiers_cases a (le_trans hab hb)
  obtain ⟨vb, hvb, hcb⟩ := tiers_cases b hb
  rw [hva, hvb]
  rcases hca with ⟨a1, ea⟩ | ⟨a1, a2, ea⟩ | ⟨a1, a2, ea⟩ | ⟨a1, ea⟩ <;>
    rcases hcb with ⟨b1, eb⟩ | ⟨b1, b2, eb⟩ | ⟨b1, b2, eb⟩ | ⟨b1, eb⟩ <;>
    rw [ea, eb] <;> linarith

/-- C16: `calculateMinGameTime` is monotone non-decreasing up to the maximum of 8: for
rationals `a <= b <= 8` the comparison `calculateMinGameTime(a) <= calculateMinGameTime(b)`
holds. -/
theorem calculateMinGameTime_mono (a b : ℚ) (hab : a ≤ b) (hb : b ≤ 8) :
    (calculateMinGameTime (.finite a)).le (calculateMinGameTime (.finite b)) = true := by
  rw [calculateMinGameTime_tiers a, calculateMinGameTime_tiers b, JSNumber.finite_le,
    decide_eq_true_eq]
  exact calculateMinGameTime_tiers_mono a b hab hb

/-- C16 at a concrete input: the rationals 5/2 and 3. -/
theorem calculateMinGameTime_mono_witness :
    (calculateMinGameTime (.finite (5 / 2))).le (calculateMinGameTime (.finite 3)) = true :=
  calculateMinGameTime_mono (5 / 2) 3 (by norm_num) (by norm_num)

/-- C17: the clamp inside `calculateMinGameTime` is redundant on the rationals: the
function equals the variant that uses `numProfiles` itself in place of
`Math.min(numProfiles, 8)`. -/
theorem calculateMinGameTime_eq_unclamped (numProfiles : ℚ) :
    calculateMinGameTime (.finite numProfiles)
      = calculateMinGameTimeUnclamped (.finite numProfiles) := by
  rw [calculateMinGameTime_finite]
  simp only [calculateMinGameTimeUnclamped, JSNumber.finite_ge, JSNumber.finite_lt,
    JSNumber.finite_le, Bool.and_eq_true, decide_eq_true_eq]
  by_cases h2 : 2 ≤ numProfiles ∧ numProfiles < 3
  · have h8 : min numProfiles 8 = numProfiles := min_eq_left (by linarith [h2.2])
    rw [h8]
    split_ifs <;> simp
  · simp only [if_neg h2]
    split_ifs <;> simp

/-! ## Effects -/

/-- C15: `calculateAndSetMinGameTime` is silent and read-only on every path. Run on any
world it leaves that world as it found it, console and settings alike, and its result is
the one of the function of the settings alone, which is always a returned number. -/
theorem calculateAndSetMinGameTimeEffect_frame (js : Builtins) (meProfile : String)
    (w : World) :
    calculateAndSetMinGameTimeEffect js meProfile w
        = (calculateAndSetMinGameTime js w.Features meProfile, w)
      ∧ (calculateAndSetMinGameTimeEffect js meProfile w).2.console = w.console
      ∧ (calculateAndSetMinGameTimeEffect js meProfile w).2.Features = w.Features
      ∧ ∃ n : JSNumber, (calculateAndSetMinGameTimeEffect js meProfile w).1 = .ok n := by
  have key : calculateAndSetMinGameTimeEffect js meProfile w
      = (calculateAndSetMinGameTime js w.Features meProfile, w) := by
    simp only [calculateAndSetMinGameTimeEffect, calculateAndSetMinGameTime,
      calculateAndSetMinGameTimeTry, Effect.tryCatch, Effect.bind, Effect.readFeatures,
      Effect.ofExcept]
    cases hfind : find (profileMatches js meProfile) w.Features.ProfilesPerIP.ProfilesArray with
    | error err => rfl
    | ok found =>
      cases found with
      | none =>
        by_cases hgt : jsGreater js w.Features.ProfilesPerIP.StaticProfiles (.finite 8) = true
        · simp [hgt, Effect.raise, Effect.ret, Effect.bind, Effect.readFeatures]
        · simp [hgt, Effect.raise, Effect.ret, Effect.bind, Effect.readFeatures]
      | some profileInArray =>
        by_cases hgt : jsGreater js (getProp profileInArray "IP") (.finite 8) = true
        · simp [hgt, Effect.raise, Effect.ret]
        · simp [hgt, Effect.raise, Effect.ret]
  refine ⟨key, ?_, ?_, ?_⟩
  · rw [key]
  · rw [key]
  · rw [key]
    unfold calculateAndSetMinGameTime
    cases calculateAndSetMinGameTimeTry js w.Features meProfile with
    | error err => exact ⟨_, rfl⟩
    | ok n => exact ⟨n, rfl⟩

/-- On the world, `validateProfileIP` is its state-passing form on the console: it leaves
the settings as they are, and when the lookup throws it leaves the console too. -/
theorem validateProfileIPEffect_eq (js : Builtins) (meProfile : String) (numProfiles : JSPrim)
    (w : World) :
    validateProfileIPEffect js meProfile numProfiles w
      = (match validateProfileIP js w.Features meProfile numProfiles w.console with
        | .ok console => (.ok (), { w with console := console })
        | .error err => (.error err, w)) := by
  simp only [validateProfileIPEffect, validateProfileIP, Effect.bind, Effect.readFeatures,
    Effect.ofExcept]
  cases hfind : find (profileMatches js meProfile) w.Features.ProfilesPerIP.ProfilesArray with
  | error err => rfl
  | ok found =>
    by_cases hm : validateProfileIPMessage js found numProfiles = ""
    · simp [hm, Effect.ret]
    · simp [hm, Effect.print]

/-! ## Entries above the maximum -/

/-- C11 fails as stated: the array holds an entry whose `IP` is 9, the active profile
matches no entry, and the result is the computed 600 for `StaticProfiles` 1, not 180. -/
theorem unmatched_entry_above_max_counterexample :
    (∃ e ∈ [mkEntry "Other" (.number (.finite 9))],
        jsGreater asciiBuiltins (getProp e "IP") (.finite 8) = true)
      ∧ calculateAndSetMinGameTime asciiBuiltins
          ⟨⟨.number (.finite 1), [mkEntry "Other" (.number (.finite 9))]⟩⟩ "sCl-ExAmpLE"
          = .ok (.finite 600)
      ∧ calculateAndSetMinGameTime asciiBuiltins
          ⟨⟨.number (.finite 1), [mkEntry "Other" (.number (.finite 9))]⟩⟩ "sCl-ExAmpLE"
          ≠ .ok (.finite 180) := by
  have hfind : find (profileMatches asciiBuiltins "sCl-ExAmpLE")
      [mkEntry "Other" (.number (.finite 9))] = .ok none := by
    rw [find_profileMatches_of_isString asciiBuiltins "sCl-ExAmpLE" _ (by decide)]
    exact congrArg Except.ok (by decide)
  have hres : calculateAndSetMinGameTime asciiBuiltins
      ⟨⟨.number (.finite 1), [mkEntry "Other" (.number (.finite 9))]⟩⟩ "sCl-ExAmpLE"
      = .ok (.finite 600) := by
    rw [calculateAndSetMinGameTime_of_find_none asciiBuiltins _ "sCl-ExAmpLE" 1 hfind rfl
      (by norm_num), calculateMinGameTime_tiers]
    norm_num
  refine ⟨⟨_, List.mem_singleton.mpr rfl, by decide⟩, hres, ?_⟩
  rw [hres]
  intro h
  injection h with h
  injection h with h
  norm_num at h

/-- C11, amended: whenever the entry matched for the active profile is an entry whose `IP`
is greater than 8, the result is 180 and not a value computed by `calculateMinGameTime`. -/
theorem calculateAndSetMinGameTime_matched_above_max (js : Builtins) (F : FeaturesSettings)
    (meProfile : String) (entry : JSObject)
    (hmatch : matchedEntry js F meProfile = some entry)
    (hgt : jsGreater js (getProp entry "IP") (.finite 8) = true) :
    entry ∈ F.ProfilesPerIP.ProfilesArray
      ∧ calculateAndSetMinGameTime js F meProfile = .ok (.finite 180)
      ∧ ∀ x : JSNumber, calculateAndSetMinGameTime js F meProfile
          ≠ .ok (calculateMinGameTime x) := by
  have hres : calculateAndSetMinGameTime js F meProfile = .ok (.finite 180) :=
    calculateAndSetMinGameTime_of_resolved_gt js F meProfile
      (by simp only [resolvedShareCount, hmatch]; exact hgt)
  refine ⟨List.mem_of_find?_eq_some hmatch, hres, fun x hx => ?_⟩
  rw [hres] at hx
  injection hx with hx
  exact calculateMinGameTime_ne_fallback x hx.symm

/-- C11, amended, at a concrete input: the second entry matches and has an `IP` of 9. -/
theorem calculateAndSetMinGameTime_matched_above_max_witness :
    calculateAndSetMinGameTime asciiBuiltins
      ⟨⟨.number (.finite 1), [mkEntry "Other" (.number (.finite 1)),
        mkEntry "sCl-ExAmpLE" (.number (.finite 9))]⟩⟩ "SCL-EXAMPLE" = .ok (.finite 180) :=
  (calculateAndSetMinGameTime_matched_above_max asciiBuiltins
    ⟨⟨.number (.finite 1), [mkEntry "Other" (.number (.finite 1)),
      mkEntry "sCl-ExAmpLE" (.number (.finite 9))]⟩⟩ "SCL-EXAMPLE"
    (mkEntry "sCl-ExAmpLE" (.number (.finite 9))) (by decide) (by decide)).2.1

/-! ## The warning and the result -/

/-- C13: on the low side the warning and the result disagree. With `StaticProfiles` -1 and
an empty `ProfilesArray` the resolved share count is -1, `validateProfileIP` on it prints
the warning that announces the default of 3 minutes, and `calculateAndSetMinGameTime`
returns 600, not 180. -/
theorem warning_low_side_not_fallback (js : Builtins) (meProfile : String)
    (console : Console) :
    resolvedShareCount js ⟨⟨.number (.finite (-1)), []⟩⟩ meProfile = .number (.finite (-1))
      ∧ validateProfileIP js ⟨⟨.number (.finite (-1)), []⟩⟩ meProfile
          (resolvedShareCount js ⟨⟨.number (.finite (-1)), []⟩⟩ meProfile) console
        = .ok (console ++ [("The value exceeds the allowable static limits. The minimum allowable limit is 1. Using the default value of 3 minutes.",
            D2BotColor.Red)])
      ∧ calculateAndSetMinGameTime js ⟨⟨.number (.finite (-1)), []⟩⟩ meProfile
        = .ok (.finite 600) := by
  have hfind : find (profileMatches js meProfile)
      (⟨⟨.number (.finite (-1)), []⟩⟩ : FeaturesSettings).ProfilesPerIP.ProfilesArray
      = .ok none := rfl
  have hcount : resolvedShareCount js ⟨⟨.number (.finite (-1)), []⟩⟩ meProfile
      = .number (.finite (-1)) := rfl
  refine ⟨hcount, ?_, ?_⟩
  · rw [hcount, validateProfileIP_of_find_ok js _ meProfile _ console none hfind]
    have hgt : jsGreater js (.number (.finite (-1))) (.finite 8) = false := by
      norm_num [jsGreater, toNumber]
    have hlt : jsLess js (.number (.finite (-1))) (.finite 0) = true := by
      norm_num [jsLess, toNumber]
    simp only [validateProfileIPMessage, hgt, hlt, Bool.or_true, if_true, Bool.false_eq_true,
      if_false, and_false]
    rfl
  · rw [calculateAndSetMinGameTime_of_find_none js _ meProfile (-1) hfind rfl (by norm_num),
      calculateMinGameTime_tiers]
    norm_num

/-- A well-formed entry has a string for `ProfileName` and an integer for `IP`. -/
theorem wellFormedEntry_fields (entry : JSObject) (h : wellFormedEntry entry = true) :
    ∃ (name : String) (ip : ℤ), getProp entry "ProfileName" = .string name
      ∧ getProp entry "IP" = .number (.finite ip) := by
  simp only [wellFormedEntry, Bool.and_eq_true] at h
  obtain ⟨hname, hip⟩ := h
  cases hn : getProp entry "ProfileName" with
  | string name =>
    cases hi : getProp entry "IP" with
    | number x =>
      cases x with
      | finite q =>
        rw [hi] at hip
        simp only [JSPrim.isInteger, Rat.isInt, Nat.beq_eq_true_eq] at hip
        exact ⟨name, q.num, rfl, by rw [Rat.coe_int_num_of_den_eq_one hip]⟩
      | nan => rw [hi] at hip; simp [JSPrim.isInteger] at hip
    | undefined => rw [hi] at hip; simp [JSPrim.isInteger] at hip
    | null => rw [hi] at hip; simp [JSPrim.isInteger] at hip
    | boolean b => rw [hi] at hip; simp [JSPrim.isInteger] at hip
    | string t => rw [hi] at hip; simp [JSPrim.isInteger] at hip
  | undefined => rw [hn] at hname; simp [JSPrim.isString] at hname
  | null => rw [hn] at hname; simp [JSPrim.isString] at hname
  | boolean b => rw [hn] at hname; simp [JSPrim.isString] at hname
  | number x => rw [hn] at hname; simp [JSPrim.isString] at hname

/-- C14: for an integer `numProfiles` above 8 or below 0 and an array of well-formed
entries, `validateProfileIP` makes exactly one print, tagged red. Its text begins with the
sentence naming the `ProfileName` and the `IP` of the matched entry when there is one, with
the sentence on the static limits otherwise, and ends with the clause on the maximum
(naming 8) above 8, with the clause on the minimum (naming 1) below 0. -/
theorem validateProfileIP_warning (js : Builtins) (F : FeaturesSettings) (meProfile : String)
    (numProfiles : ℤ) (console : Console)
    (hwf : ∀ x ∈ F.ProfilesPerIP.ProfilesArray, wellFormedEntry x = true)
    (hrange : 8 < numProfiles ∨ numProfiles < 0)
    (h8 : js.numberToString (.finite 8) = "8") :
    validateProfileIP js F meProfile (.number (.finite numProfiles)) console
        = .ok (console ++ [(
            (match matchedEntry js F meProfile with
              | some entry =>
                "The value exceeds the allowable limits. For the profile "
                  ++ toJSString js (getProp entry "ProfileName")
                  ++ ", which has an associated IP value of "
                  ++ toJSString js (getProp entry "IP")
              | none => "The value exceeds the allowable static limits.")
            ++ (if 8 < numProfiles then
                " The maximum allowable limit is 8. Using the default value of 3 minutes."
              else
                " The minimum allowable limit is 1. Using the default value of 3 minutes."),
            D2BotColor.Red)])
      ∧ ∀ entry, matchedEntry js F meProfile = some entry →
          ∃ (name : String) (ip : ℤ), getProp entry "ProfileName" = .string name
            ∧ toJSString js (getProp entry "ProfileName") = name
            ∧ getProp entry "IP" = .number (.finite ip)
            ∧ toJSString js (getProp entry "IP") = js.numberToString (.finite ip) := by
  constructor
  · have hfind := find_profileMatches_of_wellFormed js F meProfile hwf
    rw [validateProfileIP_of_find_ok js F meProfile _ console _ hfind]
    have hmax : " The maximum allowable limit is " ++ "8"
        ++ ". Using the default value of 3 minutes."
        = " The maximum allowable limit is 8. Using the default value of 3 minutes." := by
      decide
    rcases hrange with h | h
    · have hq : (8 : ℚ) < numProfiles := by exact_mod_cast h
      have hgt : jsGreater js (.number (.finite numProfiles)) (.finite 8) = true := by
        simp [jsGreater, toNumber, hq]
      simp only [validateProfileIPMessage, hgt, Bool.true_or, if_true, Bool.true_eq_false,
        false_and, if_false, h, h8, hmax]
    · have hq : (numProfiles : ℚ) < 0 := by exact_mod_cast h
      have hgt : jsGreater js (.number (.finite numProfiles)) (.finite 8) = false := by
        simp [jsGreater, toNumber]; linarith
      have hlt : jsLess js (.number (.finite numProfiles)) (.finite 0) = true := by
        simp [jsLess, toNumber, h]
      have hn8 : ¬ (8 < numProfiles) := by omega
      simp only [validateProfileIPMessage, hgt, hlt, Bool.or_true, if_true,
        Bool.false_eq_true, if_false, and_false, hn8, Bool.true_eq_false]
  · intro entry hmatch
    obtain ⟨name, ip, hname, hip⟩ :=
      wellFormedEntry_fields entry (hwf entry (List.mem_of_find?_eq_some hmatch))
    exact ⟨name, ip, hname, by rw [hname]; rfl, hip, by rw [hip]; rfl⟩

/-- C14 at a concrete input: the entry `sCl-ExAmpLE` with an `IP` of 9 is matched and
`numProfiles` is 9. -/
theorem validateProfileIP_warning_witness :
    validateProfileIP asciiBuiltins
      ⟨⟨.number (.finite 1), [mkEntry "sCl-ExAmpLE" (.number (.finite 9))]⟩⟩ "SCL-EXAMPLE"
      (.number (.finite ((9 : ℤ) : ℚ))) []
      = .ok [("The value exceeds the allowable limits. For the profile sCl-ExAmpLE, which has an associated IP value of 9 The maximum allowable limit is 8. Using the default value of 3 minutes.",
          D2BotColor.Red)] :=
  (validateProfileIP_warning asciiBuiltins
    ⟨⟨.number (.finite 1), [mkEntry "sCl-ExAmpLE" (.number (.finite 9))]⟩⟩ "SCL-EXAMPLE"
    9 [] (by decide) (by decide) (by decide)).1

end Kolbot
